import Mathlib

/-!
# Verification of the ChittyOS email-worker routing engine

Shallow embedding of the routing-decision logic of `src/email-worker.js`
(the universal AI-enhanced worker) and of the v2 worker
(`src/unnamed/part_001`), together with proofs about the spec's claims.

Modelling conventions:
* JavaScript strings are Lean `String`s; `s.toLowerCase()` is `lowerStr`,
  `s.includes(t)` is `strIncludes`, `Array.includes` is `List.contains`.
* The external key-value store is modelled, per sender, as
  `Option (Option RateRecord)`: the outer `Option` is the presence of the
  `env.RATE_LIMITS` binding, the inner one the record stored under
  `rate:<sender>`.  Timestamps are `Nat` milliseconds, as in `Date.now()`.
* The Workers-AI binding `env.AI` is an oracle `Option AIRuns` giving, for
  each of the four analysis prompts, either the response text or a failure
  (`Except Unit String`); each helper wraps its `ai.run` call in try/catch,
  exactly as in the source.
* Externally visible behaviour of one invocation is a trace of events
  (`Ev`): inference calls issued, dispatch POSTs to a workstream router
  with their success bit, `message.forward` invocations with their success
  bit, and `message.setReject` calls with the reason string.  The four AI
  sub-analyses run under `Promise.all`; the trace linearises them in array
  order (only presence/absence of inference events matters below).
* The `Oracle` fixes the behaviour of the external world during one
  invocation: the clock, whether the router POST succeeds, and whether the
  first / second `message.forward` invocation throws.  In the source the
  only awaited operations that can propagate an exception to the top-level
  catch are `forward` calls (all other helpers swallow their errors), so
  two failure bits suffice: the fallback forward in the catch block is
  always the second invocation when it runs.
* Header mutation, console logging, analytics writes (`logAnalytics`,
  `storeAIInsights`, `handleFinancialEmail`) and webhooks are invisible to
  the trace: each is wrapped in its own try/catch in the source and has no
  effect on routing; they are therefore omitted.
-/

/-- JS `String.prototype.toLowerCase` (ASCII, which is all the source uses). -/
def lowerStr (s : String) : String := ⟨s.data.map Char.toLower⟩

/-- Test whether `needle` occurs as a contiguous sublist of the argument. -/
def charsInfix (needle : List Char) : List Char → Bool
  | [] => needle.isEmpty
  | a :: t => needle.isPrefixOf (a :: t) || charsInfix needle t

/-- JS `String.prototype.includes`: substring test. -/
def strIncludes (s sub : String) : Bool := charsInfix sub.data s.data

/-- JS `String.prototype.trim` (ASCII whitespace), as a structural
function on the character list. -/
def trimStr (s : String) : String :=
  ⟨(((s.data.dropWhile Char.isWhitespace).reverse.dropWhile
      Char.isWhitespace).reverse)⟩

/-- Splitting a character list at every occurrence of `c`, accumulating
the current piece in reverse. -/
def splitOnCharAux (c : Char) : List Char → List Char → List (List Char)
  | [], acc => [acc.reverse]
  | a :: t, acc =>
      if a == c then acc.reverse :: splitOnCharAux c t []
      else splitOnCharAux c t (a :: acc)

/-- JS `String.prototype.split` with a one-character separator (the
source only splits on `"\n"` and `":"`). -/
def splitOnChar (c : Char) (s : String) : List String :=
  (splitOnCharAux c s.data []).map (fun l => ⟨l⟩)

/-- Matches the regex `\d{5,}@` starting at the head of the character list:
five digits immediately followed by a sixth character that closes the match.
`\d{5,}@` succeeds on a string iff some position starts five digits followed
by `@` (backtracking makes longer digit runs reduce to this case). -/
def fiveDigitsAtHead : List Char → Bool
  | a :: b :: c :: d :: e :: f :: _ =>
      a.isDigit && b.isDigit && c.isDigit && d.isDigit && e.isDigit && f == '@'
  | _ => false

/-- JS `from.match(/\d{5,}@/)` viewed as a Bool: the pattern occurs somewhere. -/
def hasFiveDigitsThenAt : List Char → Bool
  | [] => false
  | a :: rest => fiveDigitsAtHead (a :: rest) || hasFiveDigitsThenAt rest

/-- A stored rate record `{count, window}` (window start in ms). -/
structure RateRecord where
  count : Nat
  window : Nat
  deriving DecidableEq, Repr

/-- One inbound message, with `message.to` already split at `@`
(the source lowercases `message.to` before splitting; the embedding
lowercases the two halves, which is the same thing). -/
structure Message where
  sender : String
  toLocal : String
  toDomain : String
  subject : String
  body : String
  deriving DecidableEq, Repr

/-- Oracle responses of the Workers-AI binding for the four analysis
prompts issued by one invocation; `.error` is a failed/timed-out call. -/
structure AIRuns where
  catResp : Except Unit String
  sentResp : Except Unit String
  urgResp : Except Unit String
  entResp : Except Unit String
  deriving Repr

/-- The `aiInsights` record assembled from the four analyses. -/
structure AIInsights where
  classification : String
  sentiment : String
  urgency : String
  entities : List (String × String)
  deriving DecidableEq, Repr

/-- Environment bindings of the universal worker that influence routing. -/
structure Env where
  defaultForwardEnv : Option String
  ai : Option AIRuns
  evidenceRouterUrl : Bool
  financeRouterUrl : Bool
  complianceRouterUrl : Bool
  rateLimits : Option (Option RateRecord)
  deriving Repr

/-- External-world behaviour during one invocation. -/
structure Oracle where
  now : Nat
  dispatchOk : Bool
  fwdFail1 : Bool
  fwdFail2 : Bool
  deriving DecidableEq, Repr

/-- Externally visible events of one invocation, in execution order. -/
inductive Ev where
  | inference
  | dispatch (workstream : String) (ok : Bool)
  | forwardAct (addr : String) (ok : Bool)
  | rejectAct (reason : String)
  deriving DecidableEq, Repr

/-- Result of one invocation: the event trace and the final content of the
rate store for the message's sender. -/
structure RunResult where
  events : List Ev
  store : Option (Option RateRecord)
  deriving DecidableEq, Repr

/-- Embedding of `checkRateLimit` from `src/email-worker.js` (lines 492-509): absent
binding or absent record give `false`; a stored record gives `count > 50`.
The stored `window` field is not consulted. -/
def checkRateLimit : Option (Option RateRecord) → Bool
  | none => false
  | some none => false
  | some (some r) => r.count > 50

/-- Embedding of `updateRateLimit` from `src/email-worker.js` (lines 512-537): reset to
`{count: 1, window: now}` when more than 3600000 ms have passed since the
stored window start, otherwise increment; fresh record when none stored. -/
def updateRateLimit (store : Option (Option RateRecord)) (now : Nat) :
    Option (Option RateRecord) :=
  match store with
  | none => none
  | some existing =>
      match existing with
      | some d =>
          if now - d.window > 3600000 then some (some ⟨1, now⟩)
          else some (some ⟨d.count + 1, d.window⟩)
      | none => some (some ⟨1, now⟩)

/-- Keyword list of `isSpamQuick`. -/
def spamKeywords : List String :=
  ["viagra", "casino", "lottery", "inheritance", "prince",
   "click here now", "act now", "limited time", "you have won",
   "bitcoin mining", "forex", "make money fast", "guarantee"]

/-- Embedding of `isSpamQuick` from `src/email-worker.js` (lines 458-489). -/
def isSpamQuick (m : Message) : Bool :=
  let subject := lowerStr m.subject
  let fromAddr := lowerStr m.sender
  spamKeywords.any (fun kw => strIncludes subject kw)
    || hasFiveDigitsThenAt fromAddr.data
    || strIncludes fromAddr ".."

/-- Category enum accepted by `classifyEmail`. -/
def categoryEnum : List String :=
  ["invoice", "receipt", "contract", "legal", "support", "complaint",
   "meeting", "calendar", "newsletter", "marketing", "personal", "business",
   "api-notification", "security-alert", "compliance", "audit",
   "regulatory", "governance", "spam", "general"]

/-- Embedding of `classifyEmail` (lines 584-632): `general` when `ai` is falsy or the
call fails; otherwise the lowercased, trimmed response validated against
the closed category enum, defaulting to `general`.  The second component
records whether an inference call was issued. -/
def classifyEmail (ai : Option AIRuns) (_subject _body : String) :
    String × List Ev :=
  match ai with
  | none => ("general", [])
  | some a =>
      match a.catResp with
      | .error _ => ("general", [.inference])
      | .ok resp =>
          let category := trimStr (lowerStr resp)
          (if categoryEnum.contains category then category else "general",
           [.inference])

/-- Embedding of `analyzeSentiment` (lines 635-659). -/
def analyzeSentiment (ai : Option AIRuns) (_body : String) :
    String × List Ev :=
  match ai with
  | none => ("neutral", [])
  | some a =>
      match a.sentResp with
      | .error _ => ("neutral", [.inference])
      | .ok resp =>
          let sentiment := trimStr (lowerStr resp)
          (if ["positive", "negative", "neutral", "urgent", "angry"].contains
              sentiment then sentiment else "neutral",
           [.inference])

/-- Urgency keyword list of `checkUrgency`. -/
def urgentKeywords : List String :=
  ["urgent", "asap", "emergency", "critical", "immediately",
   "deadline", "expire", "final notice", "action required"]

/-- The keyword prefilter of `checkUrgency`: some urgency keyword occurs in
`subject + " " + body`, lowercased. -/
def hasUrgentKeyword (subject body : String) : Bool :=
  let combinedText := lowerStr (subject ++ " " ++ body)
  urgentKeywords.any (fun kw => strIncludes combinedText kw)

/-- Embedding of `checkUrgency` (lines 662-705): `normal` when `ai` is falsy; `normal`
without any inference call when no urgency keyword is present; otherwise
the validated response, defaulting to `high` on call failure (a keyword was
already detected) and `normal` on an unrecognised response. -/
def checkUrgency (ai : Option AIRuns) (subject body : String) :
    String × List Ev :=
  match ai with
  | none => ("normal", [])
  | some a =>
      if hasUrgentKeyword subject body then
        match a.urgResp with
        | .error _ => ("high", [.inference])
        | .ok resp =>
            let urgency := trimStr (lowerStr resp)
            (if ["critical", "high", "normal", "low"].contains urgency
             then urgency else "normal",
             [.inference])
      else ("normal", [])

/-- Embedding of `extractEntities` (lines 708-737): split the response on newlines, keep
lines containing `:`, split each at `:` into trimmed type/value, keep at
most 5; empty list on failure. -/
def extractEntities (ai : Option AIRuns) (_body : String) :
    List (String × String) × List Ev :=
  match ai with
  | none => ([], [])
  | some a =>
      match a.entResp with
      | .error _ => ([], [.inference])
      | .ok resp =>
          let entities :=
            ((splitOnChar '\n' resp).filter (fun line => strIncludes line ":"))
              |>.map (fun line =>
                let parts := splitOnChar ':' line
                (trimStr (parts.headD ""), trimStr (parts.getD 1 "")))
              |>.take 5
          (entities, [.inference])

/-- The `Promise.all` block of the `email` handler (lines 66-89):
assembles `aiInsights` when `env.AI` is bound, together with the inference
events of the four analyses (linearised in array order). -/
def aiPhase (ai : Option AIRuns) (subject body : String) :
    Option AIInsights × List Ev :=
  match ai with
  | none => (none, [])
  | some a =>
      let c := classifyEmail (some a) subject body
      let s := analyzeSentiment (some a) body
      let u := checkUrgency (some a) subject body
      let e := extractEntities (some a) body
      (some ⟨c.1, s.1, u.1, e.1⟩, c.2 ++ s.2 ++ u.2 ++ e.2)

/-- The AI-spam test of lines 92-96: `aiInsights` is non-null and its
classification is `"spam"`. -/
def aiSpamFlag : Option AIInsights → Bool
  | none => false
  | some i => i.classification == "spam"

/-- The management forwarding address (`MGMT_FORWARD`). -/
def mgmtForward : String := "mgmt@aribia.llc"

/-- The hardcoded safe default used when `env.DEFAULT_FORWARD` is unset,
and also by the top-level error handler's fallback forward. -/
def safeDefault : String := "no-reply@itcan.llc"

/-- Value `DEFAULT_FORWARD` of line 27: `env.DEFAULT_FORWARD || "no-reply@itcan.llc"`. -/
def defaultForwardOf (env : Env) : String :=
  env.defaultForwardEnv.getD safeDefault

/-- Table `KNOWN_DOMAINS` (lines 30-46): domain name to priority flag. -/
def knownDomains : List (String × Bool) :=
  [("nevershitty.com", true), ("chitty.cc", true), ("chittychat.com", false),
   ("chittyos.com", true), ("mrniceweird.com", false),
   ("chittyrouter.com", false), ("chicagofurnishedcondos.com", false),
   ("itcanbellc.com", true), ("aribia.llc", true), ("aribia.co", false),
   ("apt-arlene.llc", false), ("jeanarlene.com", false), ("nickyb.me", true),
   ("chittycorp.com", true)]

/-- Table `specialRoutes` (lines 118-145), keyed by local part; `none` inside the
value is the JS `null` discard marker. -/
def specialRoutesList (defaultForward : String) : List (String × Option String) :=
  [("admin", some mgmtForward), ("support", some mgmtForward),
   ("legal", some mgmtForward), ("security", some mgmtForward),
   ("abuse", some mgmtForward), ("postmaster", some mgmtForward),
   ("mgmt", some mgmtForward), ("management", some mgmtForward),
   ("web", some mgmtForward),
   ("nick", some "nick@jeanarlene.com"),
   ("sharon", some "sharon@itcanbellc.com"),
   ("api", some defaultForward), ("webhook", some defaultForward),
   ("id", some defaultForward), ("dev", some defaultForward),
   ("info", some defaultForward), ("hello", some defaultForward),
   ("noreply", none), ("no-reply", none)]

/-- Local parts routed to the litigation workstream (line 159). -/
def evidenceLocals : List String := ["evidence", "litigation", "intake"]

/-- Local parts routed to the finance workstream (lines 180-189). -/
def financeLocals : List String :=
  ["finance", "accounting", "invoice", "invoices", "billing", "bill",
   "pay", "payment"]

/-- Local parts routed to the compliance workstream (lines 211-220). -/
def complianceLocals : List String :=
  ["compliance", "governance", "risk", "audit", "regulatory", "ethics",
   "policy", "grc"]

/-- Embedding of `sendToEvidenceRouter` (lines 791-847).  Returns the events it emits
and whether it rethrew (which happens exactly when its fallback
`message.forward("mgmt@aribia.llc")` itself throws).  The router URL for
the finance workstream falls back to the evidence router URL; a missing
URL throws inside the try, landing in the same catch as a failed POST. -/
def sendToEvidenceRouter (env : Env) (o : Oracle) (workstream : String) :
    List Ev × Bool :=
  let routerUrl : Bool :=
    if workstream == "finance" then env.financeRouterUrl || env.evidenceRouterUrl
    else env.evidenceRouterUrl
  if routerUrl then
    if o.dispatchOk then ([.dispatch workstream true], false)
    else
      if o.fwdFail1 then
        ([.dispatch workstream false, .forwardAct mgmtForward false], true)
      else ([.dispatch workstream false, .forwardAct mgmtForward true], false)
  else
    if o.fwdFail1 then ([.forwardAct mgmtForward false], true)
    else ([.forwardAct mgmtForward true], false)

/-- Intermediate routing outcome inside the `email` handler: an early
`return` after a workstream dispatch (with the dispatcher's events and
whether it rethrew), an early `return` discarding the message, or fall
through to the final `message.forward` with the current `forwardTo`. -/
inductive RouteStep where
  | dispatched (evs : List Ev) (threw : Bool)
  | discarded
  | toForward (addr : String)
  deriving DecidableEq, Repr

/-- Lines 147-250 of the `email` handler: the no-reply discard, the three
workstream-trigger branches (each falling back to the management address
when its router URL is unset), and the `specialRoutes` lookup; when nothing
matches, `forwardTo` keeps its initial value `DEFAULT_FORWARD`. -/
def phase1 (lp defaultForward : String) (env : Env) (o : Oracle) : RouteStep :=
  if strIncludes lp "noreply" || strIncludes lp "no-reply" then .discarded
  else if evidenceLocals.contains lp then
    if env.evidenceRouterUrl then
      let d := sendToEvidenceRouter env o "litigation"
      .dispatched d.1 d.2
    else .toForward mgmtForward
  else if financeLocals.contains lp then
    if env.financeRouterUrl then
      let d := sendToEvidenceRouter env o "finance"
      .dispatched d.1 d.2
    else .toForward mgmtForward
  else if complianceLocals.contains lp then
    if env.complianceRouterUrl then
      let d := sendToEvidenceRouter env o "compliance"
      .dispatched d.1 d.2
    else .toForward mgmtForward
  else
    match (specialRoutesList defaultForward).lookup lp with
    | some none => .discarded
    | some (some addr) => .toForward addr
    | none => .toForward defaultForward

/-- Lines 252-359, the AI-enhanced smart routing: an if/else-if chain over
(a) legal/contract, (b) angry complaint, (c) critical/high urgency for
non-personal locals, followed by two independent `if`s: (d) invoice/receipt
to the finance workstream and (e) compliance categories to the compliance
workstream.  Note that (d) and (e) are NOT part of the else-if chain; they
run even when (a)-(c) already changed `forwardTo`. -/
def phase2Chain (i : AIInsights) (lp forwardTo : String) (env : Env) :
    Option String :=
  if i.classification == "legal" || i.classification == "contract" then
    if env.evidenceRouterUrl then none else some mgmtForward
  else if i.classification == "complaint" && i.sentiment == "angry" then
    some mgmtForward
  else if i.urgency == "critical" || i.urgency == "high" then
    if ["nick", "sharon"].contains lp then some forwardTo
    else some mgmtForward
  else some forwardTo

/-- Continuation of `phase2` after the (a)/(b)/(c) chain fixed `forwardTo`
(the two independent `if`s (d) and (e)). -/
def phase2 (ins : Option AIInsights) (lp : String) (forwardTo : String)
    (env : Env) (o : Oracle) : RouteStep :=
  match ins with
  | none => .toForward forwardTo
  | some i =>
      match phase2Chain i lp forwardTo env with
      | none =>
          -- (a) matched with the evidence router configured: dispatch and return
          let d := sendToEvidenceRouter env o "litigation"
          .dispatched d.1 d.2
      | some fwd2 =>
          if i.classification == "invoice" || i.classification == "receipt" then
            if env.financeRouterUrl then
              let d := sendToEvidenceRouter env o "finance"
              .dispatched d.1 d.2
            else
              -- handleFinancialEmail: analytics only, then fall through;
              -- a category in (d) is never also in (e)'s list, but the
              -- source still runs check (e), so mirror it
              if ["compliance", "audit", "regulatory", "governance"].contains
                  i.classification then
                if env.complianceRouterUrl then
                  let d := sendToEvidenceRouter env o "compliance"
                  .dispatched d.1 d.2
                else .toForward fwd2
              else .toForward fwd2
          else
            if ["compliance", "audit", "regulatory", "governance"].contains
                i.classification then
              if env.complianceRouterUrl then
                let d := sendToEvidenceRouter env o "compliance"
                .dispatched d.1 d.2
              else .toForward fwd2
            else .toForward fwd2

/-- The tail of the `email` handler (lines 361-438): perform the final
action of a `RouteStep` and the surrounding try/catch.  A successful
direct forward (line 398) is the only path that calls `updateRateLimit`
(line 428).  Any rethrow from the dispatcher, and any throw of the final
forward, lands in the top-level catch (lines 429-438), whose fallback
forward to the safe default may itself fail and is then swallowed. -/
def deliver (store : Option (Option RateRecord)) (o : Oracle) :
    RouteStep → RunResult
  | .discarded => ⟨[], store⟩
  | .dispatched evs threw =>
      if threw then ⟨evs ++ [.forwardAct safeDefault (!o.fwdFail2)], store⟩
      else ⟨evs, store⟩
  | .toForward addr =>
      if o.fwdFail1 then
        ⟨[.forwardAct addr false, .forwardAct safeDefault (!o.fwdFail2)], store⟩
      else ⟨[.forwardAct addr true], updateRateLimit store o.now⟩

/-- Composition of the two routing phases: a `phase1` fall-through
(`toForward`) continues into the AI-driven `phase2`; an early dispatch or
discard returns immediately. -/
def routeStep (ins : Option AIInsights) (lp defaultForward : String)
    (env : Env) (o : Oracle) : RouteStep :=
  match phase1 lp defaultForward env o with
  | .toForward addr => phase2 ins lp addr env o
  | s => s

/-- The `email` handler of `src/email-worker.js` (lines 8-439), as the
event trace plus final rate-store content of one invocation. -/
def email (m : Message) (env : Env) (o : Oracle) : RunResult :=
  let lp := lowerStr m.toLocal
  if checkRateLimit env.rateLimits then
    ⟨[.rejectAct "Rate limit exceeded - please try again later"],
     env.rateLimits⟩
  else if isSpamQuick m then
    ⟨[.rejectAct "Message classified as spam"], env.rateLimits⟩
  else
    let p := aiPhase env.ai m.subject m.body
    if aiSpamFlag p.1 then
      ⟨p.2 ++ [.rejectAct "Message classified as spam by AI"], env.rateLimits⟩
    else
      let r := deliver env.rateLimits o (routeStep p.1 lp (defaultForwardOf env) env o)
      ⟨p.2 ++ r.events, r.store⟩

/-- Sequential processing of several messages from one sender: each
invocation starts from the rate store the previous one left behind
(the per-message state is otherwise independent). -/
def processSeq (m : Message) (env : Env) : List Oracle → List (List Ev)
  | [] => []
  | o :: os =>
      let r := email m env o
      r.events :: processSeq m { env with rateLimits := r.store } os

/-- An oracle for an invocation at time `t` in which every external call
succeeds. -/
def mkOracle (t : Nat) : Oracle := ⟨t, true, false, false⟩

/-! ## The v2 worker (`src/unnamed/part_001`)

This variant has no global default-forward: `DOMAIN_CONFIG` maps each
configured domain to its own `defaultForward`, and a recipient domain with
no entry is rejected outright with "Domain not configured" before any
other processing. -/

/-- Table `DOMAIN_CONFIG` of the v2 worker, reduced to the `defaultForward`
field (the other fields only gate analytics and webhooks, which are
invisible to the trace). -/
def v2DomainConfig : List (String × String) :=
  [("nevershitty.com", "nick@mrniceweird.com"),
   ("chitty.cc", "nick@mrniceweird.com"),
   ("chittychat.com", "nick@mrniceweird.com"),
   ("chittyos.com", "nick@mrniceweird.com"),
   ("mrniceweird.com", "nick@mrniceweird.com"),
   ("chittyrouter.com", "nick@mrniceweird.com")]

/-- Spam keyword list of the v2 worker's `isSpam`. -/
def v2SpamKeywords : List String :=
  ["viagra", "casino", "lottery", "inheritance", "nigerian prince",
   "click here now", "act now", "limited time offer", "you have won",
   "bitcoin mining", "forex trading", "make money fast"]

/-- Embedding of `isSpam` of the v2 worker: keyword check on the subject plus sender
patterns, including the `noreply@` heuristic with the github/google
exceptions. -/
def v2IsSpam (m : Message) : Bool :=
  let subject := lowerStr m.subject
  let fromAddr := lowerStr m.sender
  v2SpamKeywords.any (fun kw => strIncludes subject kw)
    || (hasFiveDigitsThenAt fromAddr.data
        || strIncludes fromAddr ".."
        || (strIncludes fromAddr "noreply@"
            && !(strIncludes fromAddr "@github.com")
            && !(strIncludes fromAddr "@google.com")))

/-- Table `specialRoutes` of the v2 worker: every entry maps to the same
address, and the lookup is a truthiness test (all values are truthy). -/
def v2SpecialRoutes : List (String × String) :=
  [("legal", "nick@mrniceweird.com"), ("security", "nick@mrniceweird.com"),
   ("abuse", "nick@mrniceweird.com"), ("postmaster", "nick@mrniceweird.com"),
   ("api", "nick@mrniceweird.com"), ("webhook", "nick@mrniceweird.com"),
   ("id", "nick@mrniceweird.com"), ("support", "nick@mrniceweird.com"),
   ("admin", "nick@mrniceweird.com")]

/-- The v2 worker's environment: only the rate store is routing-visible. -/
structure V2Env where
  rateLimits : Option (Option RateRecord)
  deriving Repr

/-- The `email` handler of the v2 worker (`src/unnamed/part_001`): reject
unconfigured domains, then rate limiting, spam, special routes, forward
with rate-limit update, with the top-level catch forwarding to
`nick@mrniceweird.com`.  Its `checkRateLimit` / `updateRateLimit` are
verbatim the same logic as in `src/email-worker.js`, so those embeddings
are reused. -/
def v2Email (m : Message) (env : V2Env) (o : Oracle) : RunResult :=
  let lp := lowerStr m.toLocal
  match v2DomainConfig.lookup (lowerStr m.toDomain) with
  | none => ⟨[.rejectAct "Domain not configured"], env.rateLimits⟩
  | some defaultForward =>
      if checkRateLimit env.rateLimits then
        ⟨[.rejectAct "Rate limit exceeded - please try again later"],
         env.rateLimits⟩
      else if v2IsSpam m then
        ⟨[.rejectAct "Message classified as spam"], env.rateLimits⟩
      else
        let forwardTo := (v2SpecialRoutes.lookup lp).getD defaultForward
        if o.fwdFail1 then
          ⟨[.forwardAct forwardTo false,
            .forwardAct "nick@mrniceweird.com" (!o.fwdFail2)],
           env.rateLimits⟩
        else
          ⟨[.forwardAct forwardTo true], updateRateLimit env.rateLimits o.now⟩

/-! ## Derived notions used in the statements -/

/-- The event is a `message.forward` invocation (successful or not). -/
def isFwdEv : Ev → Bool
  | .forwardAct _ _ => true
  | _ => false

/-- The event is a successfully completed `message.forward`. -/
def isFwdSuccessEv : Ev → Bool
  | .forwardAct _ true => true
  | _ => false

/-- The event is a `message.setReject` call. -/
def isRejectEv : Ev → Bool
  | .rejectAct _ => true
  | _ => false

/-- The event is a dispatch POST to a workstream router. -/
def isDispatchEv : Ev → Bool
  | .dispatch _ _ => true
  | _ => false

/-- Number of events in a trace satisfying `p`. -/
def countP (p : Ev → Bool) (evs : List Ev) : Nat := (evs.filter p).length

/-- A Workers-AI oracle on which every inference call fails. -/
def failAI : AIRuns := ⟨.error (), .error (), .error (), .error ()⟩

/-- A message/environment pair on which none of the routing rules before
the final default forward fires: not quick-spam, no AI binding, local part
triggers neither the no-reply discard, nor a workstream, nor a special
route.  Such a message is forwarded to `DEFAULT_FORWARD` whenever it is
not rate-limited. -/
abbrev harmless (m : Message) (env : Env) : Prop :=
  isSpamQuick m = false ∧
  env.ai = none ∧
  strIncludes (lowerStr m.toLocal) "noreply" = false ∧
  strIncludes (lowerStr m.toLocal) "no-reply" = false ∧
  lowerStr m.toLocal ∉ evidenceLocals ∧
  lowerStr m.toLocal ∉ financeLocals ∧
  lowerStr m.toLocal ∉ complianceLocals ∧
  (specialRoutesList (defaultForwardOf env)).lookup (lowerStr m.toLocal) = none

/-- Expected per-invocation traces for a sequence of harmless messages
from one sender whose stored count starts at `c`: each invocation is
rejected when the stored count exceeds 50 and otherwise forwarded
(incrementing the count). -/
def expectedEvents (defaultForward : String) : Nat → List Nat → List (List Ev)
  | _, [] => []
  | c, _ :: ts =>
      if c > 50 then
        [Ev.rejectAct "Rate limit exceeded - please try again later"] ::
          expectedEvents defaultForward c ts
      else
        [Ev.forwardAct defaultForward true] ::
          expectedEvents defaultForward (c + 1) ts

/-! ## Concrete inputs used by witnesses and counterexamples -/

/-- A harmless message: no spam keyword, clean sender, unremarkable local
part `zz`. -/
def c1Msg : Message := ⟨"sender@example.com", "zz", "itcanbellc.com", "hello", "hi"⟩

/-- Rate limiting enabled with an empty store, no AI, no routers, explicit
default-forward address. -/
def c1Env : Env :=
  { defaultForwardEnv := some "inbox@example.com", ai := none,
    evidenceRouterUrl := false, financeRouterUrl := false,
    complianceRouterUrl := false, rateLimits := some none }

/-- Send times of a burst of 60 messages, one every 10 seconds (the whole
burst spans 10 minutes, well inside one 3600000 ms window). -/
def c1BurstTimes : List Nat := (List.range 60).map (fun k => k * 10000)

/-- Traces of the 60-message burst, threading the rate store. -/
def c1BurstResults : List (List Ev) :=
  processSeq c1Msg c1Env (c1BurstTimes.map mkOracle)

/-! ## Helper lemmas -/

theorem classifyEmail_events (ai : Option AIRuns) (s b : String) :
    ∀ e ∈ (classifyEmail ai s b).2, e = Ev.inference := by
  cases ai with
  | none => simp [classifyEmail]
  | some a => cases h : a.catResp <;> simp [classifyEmail, h]

theorem analyzeSentiment_events (ai : Option AIRuns) (b : String) :
    ∀ e ∈ (analyzeSentiment ai b).2, e = Ev.inference := by
  cases ai with
  | none => simp [analyzeSentiment]
  | some a => cases h : a.sentResp <;> simp [analyzeSentiment, h]

theorem checkUrgency_events (ai : Option AIRuns) (s b : String) :
    ∀ e ∈ (checkUrgency ai s b).2, e = Ev.inference := by
  cases ai with
  | none => simp [checkUrgency]
  | some a =>
      cases hk : hasUrgentKeyword s b <;> cases h : a.urgResp <;>
        simp [checkUrgency, h, hk]

theorem extractEntities_events (ai : Option AIRuns) (b : String) :
    ∀ e ∈ (extractEntities ai b).2, e = Ev.inference := by
  cases ai with
  | none => simp [extractEntities]
  | some a => cases h : a.entResp <;> simp [extractEntities, h]

theorem aiPhase_events_inference (ai : Option AIRuns) (s b : String) :
    ∀ e ∈ (aiPhase ai s b).2, e = Ev.inference := by
  cases ai with
  | none => simp [aiPhase]
  | some a =>
      intro e he
      simp only [aiPhase, List.mem_append] at he
      rcases he with ((h | h) | h) | h
      · exact classifyEmail_events (some a) s b e h
      · exact analyzeSentiment_events (some a) b e h
      · exact checkUrgency_events (some a) s b e h
      · exact extractEntities_events (some a) b e h

/-! ## C5 — the rate-limit check -/

/-- C5, counterexample.  The claim says `shouldReject` returns `false`
when the stored record's window has expired (`now - windowStart > 3600`
seconds).  In the code, `checkRateLimit` never reads the stored `window`
field: a record `{count: 51, window: 0}` examined at `now = 7300000` ms
(window long expired, in ms as the code measures it) still yields `true`. -/
theorem c5_window_cex :
    checkRateLimit (some (some ⟨51, 0⟩)) = true ∧ 7300000 - 0 > 3600000 := by
  decide

/-- C5, amended: `checkRateLimit` returns `false` when the `RATE_LIMITS`
binding or the sender's record is absent, and returns `count > 50`
whenever a record is stored, regardless of its window start; expiry of old
records is delegated to the store's TTL and to the reset inside
`updateRateLimit`. -/
theorem c5_amended :
    checkRateLimit none = false ∧ checkRateLimit (some none) = false ∧
      ∀ r : RateRecord, checkRateLimit (some (some r)) = decide (r.count > 50) :=
  ⟨rfl, rfl, fun _ => rfl⟩

/-! ## C6 — deterministic classification fallback -/

/-- C6: when every inference call fails (`failAI`), the assembled insights
are category `general`, sentiment `neutral`, entities `[]`, and urgency
`high` when an urgency keyword occurs in subject+body, `normal` otherwise;
moreover `checkUrgency` issues no inference call at all when no urgency
keyword is present (its event list is empty). -/
theorem c6_fallback_deterministic (s b : String) :
    aiPhase (some failAI) s b =
      (some ⟨"general", "neutral",
             if hasUrgentKeyword s b then "high" else "normal", []⟩,
       [Ev.inference, Ev.inference] ++
         (if hasUrgentKeyword s b then [Ev.inference] else []) ++
         [Ev.inference])
    ∧ checkUrgency (some failAI) s b =
        (if hasUrgentKeyword s b then "high" else "normal",
         if hasUrgentKeyword s b then [Ev.inference] else []) := by
  cases hk : hasUrgentKeyword s b <;>
    simp [aiPhase, classifyEmail, analyzeSentiment, checkUrgency,
          extractEntities, failAI, hk]

/-! ## C7 — dispatch failure falls back to a management forward -/

/-- C7: whenever `sendToEvidenceRouter` does not complete a successful
dispatch POST (missing router URL, non-success response, or transport
error — all landing in its catch), it invokes
`message.forward("mgmt@aribia.llc")`; the invocation succeeds exactly when
the forward call itself does not throw, so a dispatch failure never leaves
the message with neither a dispatch nor a forward attempt. -/
theorem c7_dispatch_fallback (env : Env) (o : Oracle) (ws : String)
    (h : Ev.dispatch ws true ∉ (sendToEvidenceRouter env o ws).1) :
    Ev.forwardAct mgmtForward (!o.fwdFail1) ∈ (sendToEvidenceRouter env o ws).1 := by
  rcases env with ⟨df, ai, evU, finU, compU, rl⟩
  rcases o with ⟨n, dOk, f1, f2⟩
  cases evU <;> cases finU <;> cases dOk <;> cases f1 <;>
    by_cases hw : ws = "finance" <;>
      simp_all [sendToEvidenceRouter]

/-- C7, witness: with no router URL configured and a non-throwing forward,
the litigation dispatcher forwards to the management address. -/
theorem c7_dispatch_fallback_witness :
    Ev.forwardAct mgmtForward true ∈
      (sendToEvidenceRouter
        { defaultForwardEnv := none, ai := none, evidenceRouterUrl := false,
          financeRouterUrl := false, complianceRouterUrl := false,
          rateLimits := none } (mkOracle 0) "litigation").1 :=
  c7_dispatch_fallback _ (mkOracle 0) "litigation" (by decide)

/-! ## C8 — quick spam check precedes any inference call -/

/-- C8: a message that is not rate-limited and whose subject contains a
configured spam keyword is rejected with the spam reason, and its whole
trace is that single rejection — in particular no inference event occurs,
whatever the AI binding and oracle: the quick spam check of line 57 runs
before the AI block of lines 66-103. -/
theorem c8_spam_before_inference (m : Message) (env : Env) (o : Oracle)
    (hrl : checkRateLimit env.rateLimits = false)
    (hkw : ∃ kw, kw ∈ spamKeywords ∧ strIncludes (lowerStr m.subject) kw = true) :
    email m env o =
      ⟨[Ev.rejectAct "Message classified as spam"], env.rateLimits⟩ := by
  have hq : isSpamQuick m = true := by
    obtain ⟨kw, hmem, hinc⟩ := hkw
    unfold isSpamQuick
    have : spamKeywords.any (fun kw => strIncludes (lowerStr m.subject) kw) = true :=
      List.any_eq_true.mpr ⟨kw, hmem, hinc⟩
    simp [this]
  simp [email, hrl, hq]

/-- C8, witness: a lottery-subject message with the AI binding configured
(and returning non-spam answers) is rejected as spam with no inference
event in its trace. -/
theorem c8_spam_before_inference_witness :
    email ⟨"someone@example.org", "info", "chitty.cc", "You have WON the LOTTERY", "claim it"⟩
      { defaultForwardEnv := none,
        ai := some ⟨.ok "legal", .ok "angry", .ok "critical", .ok "a:b"⟩,
        evidenceRouterUrl := true, financeRouterUrl := true,
        complianceRouterUrl := true, rateLimits := some none }
      (mkOracle 3) =
      ⟨[Ev.rejectAct "Message classified as spam"], some none⟩ :=
  c8_spam_before_inference _ _ _ (by decide) ⟨"lottery", by decide, by decide⟩

/-! ## C3 — unconfigured recipient domain -/

/-- C3: a recipient domain with no `DOMAIN_CONFIG` entry is rejected with
reason "Domain not configured" in the v2 worker (`src/unnamed/part_001`),
which has no global default-forward; in `src/email-worker.js`, where the
global `DEFAULT_FORWARD` is defined, a message to a domain with no
`KNOWN_DOMAINS` entry is not rejected: when no earlier routing rule
matches, rule 5 forwards it to that global default. -/
theorem c3_unconfigured_domain :
    (∀ (m : Message) (env : V2Env) (o : Oracle),
        v2DomainConfig.lookup (lowerStr m.toDomain) = none →
        v2Email m env o =
          ⟨[Ev.rejectAct "Domain not configured"], env.rateLimits⟩)
    ∧ (∀ (m : Message) (env : Env) (o : Oracle) (g : String),
        knownDomains.lookup (lowerStr m.toDomain) = none →
        env.defaultForwardEnv = some g →
        checkRateLimit env.rateLimits = false →
        isSpamQuick m = false →
        env.ai = none →
        strIncludes (lowerStr m.toLocal) "noreply" = false →
        strIncludes (lowerStr m.toLocal) "no-reply" = false →
        lowerStr m.toLocal ∉ evidenceLocals →
        lowerStr m.toLocal ∉ financeLocals →
        lowerStr m.toLocal ∉ complianceLocals →
        (specialRoutesList g).lookup (lowerStr m.toLocal) = none →
        o.fwdFail1 = false →
        email m env o =
          ⟨[Ev.forwardAct g true], updateRateLimit env.rateLimits o.now⟩) := by
  constructor
  · intro m env o h
    simp [v2Email, h]
  · intro m env o g hdom hgdf hrl hsp hai hnr1 hnr2 hev hfin hcom hsr hff
    have hdf : defaultForwardOf env = g := by simp [defaultForwardOf, hgdf]
    simp [email, hrl, hsp, hai, aiPhase, aiSpamFlag, routeStep, phase1, hdf,
          hnr1, hnr2, hev, hfin, hcom, hsr, phase2, phase2Chain, deliver, hff]

/-- C3, witness: both halves at concrete inputs — `zz@unknown.example` is
rejected by the v2 worker and forwarded to the configured global default
by the universal worker. -/
theorem c3_unconfigured_domain_witness :
    v2Email ⟨"a@b.c", "zz", "unknown.example", "", ""⟩ ⟨some none⟩ (mkOracle 7) =
        ⟨[Ev.rejectAct "Domain not configured"], some none⟩
    ∧ email ⟨"a@b.c", "zz", "unknown.example", "", ""⟩
        { defaultForwardEnv := some "catchall@example.com", ai := none,
          evidenceRouterUrl := false, financeRouterUrl := false,
          complianceRouterUrl := false, rateLimits := some none }
        (mkOracle 7) =
        ⟨[Ev.forwardAct "catchall@example.com" true],
         some (some ⟨1, 7⟩)⟩ :=
  ⟨c3_unconfigured_domain.1 _ _ _ (by decide),
   c3_unconfigured_domain.2 _ _ _ "catchall@example.com" (by decide) rfl
     (by decide) (by decide) rfl (by decide) (by decide) (by decide)
     (by decide) (by decide) (by decide) rfl⟩

/-! ## C4 — no-reply recipients -/

/-- C4, counterexample.  The claim quantifies over every classification
result, but the AI-spam rejection (lines 92-96) runs before the no-reply
check (lines 147-156): a message to `noreply@chitty.cc` whose
classification is `spam` is rejected, not discarded. -/
theorem c4_noreply_cex :
    email ⟨"bob@example.org", "noreply", "chitty.cc", "hi", "hello"⟩
        { defaultForwardEnv := none,
          ai := some ⟨.ok "spam", .ok "neutral", .ok "normal", .ok ""⟩,
          evidenceRouterUrl := false, financeRouterUrl := false,
          complianceRouterUrl := false, rateLimits := none }
        (mkOracle 0) =
      ⟨[Ev.inference, Ev.inference, Ev.inference,
        Ev.rejectAct "Message classified as spam by AI"], none⟩
    ∧ Ev.rejectAct "Message classified as spam by AI" ∈
        (email ⟨"bob@example.org", "noreply", "chitty.cc", "hi", "hello"⟩
          { defaultForwardEnv := none,
            ai := some ⟨.ok "spam", .ok "neutral", .ok "normal", .ok ""⟩,
            evidenceRouterUrl := false, financeRouterUrl := false,
            complianceRouterUrl := false, rateLimits := none }
          (mkOracle 0)).events := by
  decide

/-- C4, amended: a message whose recipient local part contains "noreply"
or "no-reply" is discarded — its trace contains no forward, reject or
dispatch event (only inference events) and the rate store is untouched —
for every domain and every classification result, PROVIDED the message is
not rate-limited, is not quick-spam, and its AI classification is not
`spam` (those three rejections run before the no-reply check). -/
theorem c4_noreply_discard (m : Message) (env : Env) (o : Oracle)
    (hrl : checkRateLimit env.rateLimits = false)
    (hsp : isSpamQuick m = false)
    (hcls : aiSpamFlag (aiPhase env.ai m.subject m.body).1 = false)
    (hnr : strIncludes (lowerStr m.toLocal) "noreply" = true ∨
           strIncludes (lowerStr m.toLocal) "no-reply" = true) :
    (∀ e ∈ (email m env o).events, e = Ev.inference)
    ∧ (email m env o).store = env.rateLimits := by
  have hphase1 :
      phase1 (lowerStr m.toLocal) (defaultForwardOf env) env o = .discarded := by
    unfold phase1
    rcases hnr with h | h <;> simp [h]
  have heq :
      email m env o = ⟨(aiPhase env.ai m.subject m.body).2, env.rateLimits⟩ := by
    simp [email, hrl, hsp, hcls, routeStep, hphase1, deliver]
  rw [heq]
  exact ⟨aiPhase_events_inference env.ai m.subject m.body, rfl⟩

/-- C4, witness: a noreply recipient classified `legal` with critical
urgency and every router configured is still discarded: four inference
events, nothing else, store untouched. -/
theorem c4_noreply_discard_witness :
    (∀ e ∈ (email ⟨"bob@example.org", "noreply", "chitty.cc", "urgent", "hello"⟩
        { defaultForwardEnv := none,
          ai := some ⟨.ok "legal", .ok "angry", .ok "critical", .ok "a:b"⟩,
          evidenceRouterUrl := true, financeRouterUrl := true,
          complianceRouterUrl := true, rateLimits := some none }
        (mkOracle 2)).events, e = Ev.inference)
    ∧ (email ⟨"bob@example.org", "noreply", "chitty.cc", "urgent", "hello"⟩
        { defaultForwardEnv := none,
          ai := some ⟨.ok "legal", .ok "angry", .ok "critical", .ok "a:b"⟩,
          evidenceRouterUrl := true, financeRouterUrl := true,
          complianceRouterUrl := true, rateLimits := some none }
        (mkOracle 2)).store = some none :=
  c4_noreply_discard _ _ _ (by decide) (by decide) (by decide)
    (Or.inl (by decide))

/-! ## C2 — precedence of the classification-driven sub-rules -/

/-- C2, counterexample.  A message to `xyz@chitty.cc` with classification
`invoice` and urgency `critical` matches sub-rule (c) and no earlier rule,
and the finance router is configured; the claim says it is forwarded to
management and (d) is not applied — but the code dispatches it to the
finance workstream and never forwards: (d) is a separate `if` after the
(a)/(b)/(c) chain, not part of it. -/
theorem c2_precedence_cex :
    email ⟨"alice@example.com", "xyz", "chitty.cc", "urgent", "please pay invoice"⟩
        { defaultForwardEnv := none,
          ai := some ⟨.ok "invoice", .ok "neutral", .ok "critical", .error ()⟩,
          evidenceRouterUrl := false, financeRouterUrl := true,
          complianceRouterUrl := false, rateLimits := none }
        (mkOracle 0) =
      ⟨[Ev.inference, Ev.inference, Ev.inference, Ev.inference,
        Ev.dispatch "finance" true], none⟩
    ∧ (∀ b, Ev.forwardAct mgmtForward b ∉
        (email ⟨"alice@example.com", "xyz", "chitty.cc", "urgent", "please pay invoice"⟩
          { defaultForwardEnv := none,
            ai := some ⟨.ok "invoice", .ok "neutral", .ok "critical", .error ()⟩,
            evidenceRouterUrl := false, financeRouterUrl := true,
            complianceRouterUrl := false, rateLimits := none }
          (mkOracle 0)).events) := by
  constructor
  · decide
  · intro b
    cases b <;> decide

/-- C2, amended: sub-rules (a)-(c) are first-match-wins among themselves,
but (d) and (e) are separate `if`s evaluated after that chain.  For a
message on which no earlier rule (1-3, 4a, 4b) matches and (c) matches
(urgency critical/high, local part not nick/sharon): if the category is
invoice/receipt and the finance router is configured, the message is
dispatched to the finance workstream (sub-rule (d) overrides (c)'s
choice); only when neither (d) nor (e) dispatches is it forwarded to the
management address. -/
theorem c2_subrule_precedence (m : Message) (env : Env) (o : Oracle)
    (ins : AIInsights) (aiEvs : List Ev)
    (hrl : checkRateLimit env.rateLimits = false)
    (hsp : isSpamQuick m = false)
    (hai : aiPhase env.ai m.subject m.body = (some ins, aiEvs))
    (hnr1 : strIncludes (lowerStr m.toLocal) "noreply" = false)
    (hnr2 : strIncludes (lowerStr m.toLocal) "no-reply" = false)
    (hev : lowerStr m.toLocal ∉ evidenceLocals)
    (hfin : lowerStr m.toLocal ∉ financeLocals)
    (hcom : lowerStr m.toLocal ∉ complianceLocals)
    (hsr : (specialRoutesList (defaultForwardOf env)).lookup (lowerStr m.toLocal) = none)
    (ha1 : ins.classification ≠ "legal") (ha2 : ins.classification ≠ "contract")
    (hb : ¬(ins.classification = "complaint" ∧ ins.sentiment = "angry"))
    (hc : ins.urgency = "critical" ∨ ins.urgency = "high")
    (hpers : lowerStr m.toLocal ∉ ["nick", "sharon"])
    (hnsp : ins.classification ≠ "spam") :
    ((ins.classification = "invoice" ∨ ins.classification = "receipt") →
      env.financeRouterUrl = true → o.dispatchOk = true →
      email m env o = ⟨aiEvs ++ [Ev.dispatch "finance" true], env.rateLimits⟩)
    ∧ (ins.classification ≠ "invoice" → ins.classification ≠ "receipt" →
       ins.classification ∉ ["compliance", "audit", "regulatory", "governance"] →
       o.fwdFail1 = false →
       email m env o =
         ⟨aiEvs ++ [Ev.forwardAct mgmtForward true],
          updateRateLimit env.rateLimits o.now⟩) := by
  have hphase1 :
      phase1 (lowerStr m.toLocal) (defaultForwardOf env) env o =
        .toForward (defaultForwardOf env) := by
    simp [phase1, hnr1, hnr2, hev, hfin, hcom, hsr]
  have hp1 : lowerStr m.toLocal ≠ "nick" := by
    intro h; exact hpers (by simp [h])
  have hp2 : lowerStr m.toLocal ≠ "sharon" := by
    intro h; exact hpers (by simp [h])
  have hcb : (ins.urgency == "critical" || ins.urgency == "high") = true := by
    rcases hc with h | h <;> simp [h]
  have hbb : (ins.classification == "complaint" && ins.sentiment == "angry") = false := by
    rcases Decidable.em (ins.classification = "complaint") with h | h
    · have : ins.sentiment ≠ "angry" := fun hs => hb ⟨h, hs⟩
      simp [this]
    · simp [h]
  constructor
  · intro hd hfurl hok
    have hdb : (ins.classification == "invoice" || ins.classification == "receipt") = true := by
      rcases hd with h | h <;> simp [h]
    have hrouter : sendToEvidenceRouter env o "finance" = ([Ev.dispatch "finance" true], false) := by
      simp [sendToEvidenceRouter, hfurl, hok]
    simp [email, hrl, hsp, hai, aiSpamFlag, hnsp, routeStep, hphase1, phase2,
          phase2Chain, ha1, ha2, hbb, hcb, hp1, hp2, hdb, hfurl, hrouter,
          deliver]
  · intro hd1 hd2 he hff
    have hdb : (ins.classification == "invoice" || ins.classification == "receipt") = false := by
      simp [hd1, hd2]
    simp [email, hrl, hsp, hai, aiSpamFlag, hnsp, routeStep, hphase1, phase2,
          phase2Chain, ha1, ha2, hbb, hcb, hp1, hp2, hdb, he, deliver, hff]

/-- C2, witness: both conclusions of the amended precedence theorem at
concrete inputs — the urgent invoice is dispatched to finance when the
router is configured, and an urgent `general` message is forwarded to
management. -/
theorem c2_subrule_precedence_witness :
    email ⟨"alice@example.com", "xyz", "chitty.cc", "urgent", "please pay invoice"⟩
        { defaultForwardEnv := none,
          ai := some ⟨.ok "invoice", .ok "neutral", .ok "critical", .error ()⟩,
          evidenceRouterUrl := false, financeRouterUrl := true,
          complianceRouterUrl := false, rateLimits := none }
        (mkOracle 0) =
      ⟨[Ev.inference, Ev.inference, Ev.inference, Ev.inference] ++
        [Ev.dispatch "finance" true], none⟩
    ∧ email ⟨"alice@example.com", "xyz", "chitty.cc", "urgent", "hello"⟩
        { defaultForwardEnv := none,
          ai := some ⟨.ok "general", .ok "neutral", .ok "critical", .error ()⟩,
          evidenceRouterUrl := false, financeRouterUrl := true,
          complianceRouterUrl := false, rateLimits := none }
        (mkOracle 0) =
      ⟨[Ev.inference, Ev.inference, Ev.inference, Ev.inference] ++
        [Ev.forwardAct mgmtForward true], none⟩ :=
  ⟨(c2_subrule_precedence _ _ _ ⟨"invoice", "neutral", "critical", []⟩ _
      (by decide) (by decide) (by decide) (by decide) (by decide) (by decide)
      (by decide) (by decide) (by decide) (by decide) (by decide)
      (by decide) (Or.inl rfl) (by decide) (by decide)).1 (Or.inl rfl) rfl rfl,
   (c2_subrule_precedence _ _ _ ⟨"general", "neutral", "critical", []⟩ _
      (by decide) (by decide) (by decide) (by decide) (by decide) (by decide)
      (by decide) (by decide) (by decide) (by decide) (by decide)
      (by decide) (Or.inl rfl) (by decide) (by decide)).2 (by decide) (by decide)
      (by decide) rfl⟩

/-! ## Trace-shape analysis for the invariants C9 and C10 -/

theorem sendRouter_cases (env : Env) (o : Oracle) (ws : String) :
    sendToEvidenceRouter env o ws = ([Ev.dispatch ws true], false)
    ∨ sendToEvidenceRouter env o ws =
        ([Ev.dispatch ws false, Ev.forwardAct mgmtForward true], false)
    ∨ sendToEvidenceRouter env o ws =
        ([Ev.dispatch ws false, Ev.forwardAct mgmtForward false], true)
    ∨ sendToEvidenceRouter env o ws = ([Ev.forwardAct mgmtForward true], false)
    ∨ sendToEvidenceRouter env o ws = ([Ev.forwardAct mgmtForward false], true) := by
  rcases env with ⟨df, ai, evU, finU, compU, rl⟩
  rcases o with ⟨n, dOk, f1, f2⟩
  cases evU <;> cases finU <;> cases dOk <;> cases f1 <;>
    by_cases hw : ws = "finance" <;>
      simp [sendToEvidenceRouter, hw]

theorem phase1_cases (lp defaultForward : String) (env : Env) (o : Oracle) :
    phase1 lp defaultForward env o = .discarded
    ∨ (∃ a, phase1 lp defaultForward env o = .toForward a)
    ∨ (∃ ws, phase1 lp defaultForward env o =
        .dispatched (sendToEvidenceRouter env o ws).1
          (sendToEvidenceRouter env o ws).2) := by
  unfold phase1
  split_ifs <;>
    try first
      | exact Or.inl rfl
      | exact Or.inr (Or.inl ⟨_, rfl⟩)
      | exact Or.inr (Or.inr ⟨"litigation", rfl⟩)
      | exact Or.inr (Or.inr ⟨"finance", rfl⟩)
      | exact Or.inr (Or.inr ⟨"compliance", rfl⟩)
  cases hl : (specialRoutesList defaultForward).lookup lp with
  | none => exact Or.inr (Or.inl ⟨_, rfl⟩)
  | some ov =>
      cases ov with
      | none => exact Or.inl rfl
      | some a => exact Or.inr (Or.inl ⟨a, rfl⟩)

theorem phase2_cases (ins : Option AIInsights) (lp addr : String)
    (env : Env) (o : Oracle) :
    (∃ a, phase2 ins lp addr env o = .toForward a)
    ∨ (∃ ws, phase2 ins lp addr env o =
        .dispatched (sendToEvidenceRouter env o ws).1
          (sendToEvidenceRouter env o ws).2) := by
  rcases ins with _ | i
  · exact Or.inl ⟨addr, rfl⟩
  · cases hch : phase2Chain i lp addr env with
    | none => exact Or.inr ⟨"litigation", by simp [phase2, hch]⟩
    | some f2 =>
        by_cases hD : i.classification = "invoice" ∨ i.classification = "receipt"
        · cases hF : env.financeRouterUrl
          · rcases hD with h | h <;>
              exact Or.inl ⟨f2, by simp [phase2, hch, h, hF]⟩
          · rcases hD with h | h <;>
              exact Or.inr ⟨"finance", by simp [phase2, hch, h, hF]⟩
        · push_neg at hD
          by_cases hE : i.classification = "compliance" ∨
              i.classification = "audit" ∨ i.classification = "regulatory" ∨
              i.classification = "governance"
          · cases hG : env.complianceRouterUrl
            · rcases hE with h | h | h | h <;>
                exact Or.inl ⟨f2, by simp [phase2, hch, h, hG]⟩
            · rcases hE with h | h | h | h <;>
                exact Or.inr ⟨"compliance", by simp [phase2, hch, h, hG]⟩
          · push_neg at hE
            exact Or.inl ⟨f2, by
              simp [phase2, hch, hD.1, hD.2, hE.1, hE.2.1, hE.2.2.1, hE.2.2.2]⟩

theorem routeStep_cases (ins : Option AIInsights) (lp defaultForward : String)
    (env : Env) (o : Oracle) :
    routeStep ins lp defaultForward env o = .discarded
    ∨ (∃ a, routeStep ins lp defaultForward env o = .toForward a)
    ∨ (∃ ws, routeStep ins lp defaultForward env o =
        .dispatched (sendToEvidenceRouter env o ws).1
          (sendToEvidenceRouter env o ws).2) := by
  unfold routeStep
  rcases phase1_cases lp defaultForward env o with h | ⟨a, h⟩ | ⟨ws, h⟩
  · rw [h]; exact Or.inl rfl
  · rw [h]
    rcases phase2_cases ins lp a env o with ⟨a2, h2⟩ | ⟨ws, h2⟩
    · exact Or.inr (Or.inl ⟨a2, h2⟩)
    · exact Or.inr (Or.inr ⟨ws, h2⟩)
  · rw [h]; exact Or.inr (Or.inr ⟨ws, rfl⟩)

/-- Exhaustive classification of one invocation's result: a prefix of
inference events followed by one of eight terminal shapes; the rate store
changes only in the successful-direct-forward shape. -/
theorem email_cases (m : Message) (env : Env) (o : Oracle) :
    ∃ infs : List Ev, (∀ e ∈ infs, e = Ev.inference) ∧
      ((∃ r, email m env o = ⟨infs ++ [Ev.rejectAct r], env.rateLimits⟩)
       ∨ email m env o = ⟨infs, env.rateLimits⟩
       ∨ (∃ ws, email m env o = ⟨infs ++ [Ev.dispatch ws true], env.rateLimits⟩)
       ∨ (∃ a, email m env o = ⟨infs ++ [Ev.forwardAct a true], env.rateLimits⟩)
       ∨ (∃ a, email m env o =
            ⟨infs ++ [Ev.forwardAct a true], updateRateLimit env.rateLimits o.now⟩)
       ∨ (∃ a b, email m env o =
            ⟨infs ++ [Ev.forwardAct a false, Ev.forwardAct safeDefault b],
             env.rateLimits⟩)
       ∨ (∃ ws, email m env o =
            ⟨infs ++ [Ev.dispatch ws false, Ev.forwardAct mgmtForward true],
             env.rateLimits⟩)
       ∨ (∃ ws b, email m env o =
            ⟨infs ++ [Ev.dispatch ws false, Ev.forwardAct mgmtForward false,
                      Ev.forwardAct safeDefault b],
             env.rateLimits⟩)) := by
  by_cases h1 : checkRateLimit env.rateLimits = true
  · exact ⟨[], by simp, Or.inl ⟨"Rate limit exceeded - please try again later",
      by simp [email, h1]⟩⟩
  have h1f : checkRateLimit env.rateLimits = false := by
    simpa using h1
  by_cases h2 : isSpamQuick m = true
  · exact ⟨[], by simp, Or.inl ⟨"Message classified as spam",
      by simp [email, h1f, h2]⟩⟩
  have h2f : isSpamQuick m = false := by simpa using h2
  by_cases h3 : aiSpamFlag (aiPhase env.ai m.subject m.body).1 = true
  · exact ⟨(aiPhase env.ai m.subject m.body).2,
      aiPhase_events_inference env.ai m.subject m.body,
      Or.inl ⟨"Message classified as spam by AI",
        by simp [email, h1f, h2f, h3]⟩⟩
  have h3f : aiSpamFlag (aiPhase env.ai m.subject m.body).1 = false := by
    simpa using h3
  refine ⟨(aiPhase env.ai m.subject m.body).2,
    aiPhase_events_inference env.ai m.subject m.body, ?_⟩
  rcases routeStep_cases (aiPhase env.ai m.subject m.body).1 (lowerStr m.toLocal)
      (defaultForwardOf env) env o with hs | ⟨a, hs⟩ | ⟨ws, hs⟩
  · exact Or.inr (Or.inl (by simp [email, h1f, h2f, h3f, hs, deliver]))
  · by_cases hf : o.fwdFail1 = true
    · exact Or.inr (Or.inr (Or.inr (Or.inr (Or.inr (Or.inl
        ⟨a, !o.fwdFail2, by simp [email, h1f, h2f, h3f, hs, deliver, hf]⟩)))))
    · have hff : o.fwdFail1 = false := by simpa using hf
      exact Or.inr (Or.inr (Or.inr (Or.inr (Or.inl
        ⟨a, by simp [email, h1f, h2f, h3f, hs, deliver, hff]⟩))))
  · rcases sendRouter_cases env o ws with hr | hr | hr | hr | hr
    · exact Or.inr (Or.inr (Or.inl
        ⟨ws, by simp [email, h1f, h2f, h3f, hs, hr, deliver]⟩))
    · exact Or.inr (Or.inr (Or.inr (Or.inr (Or.inr (Or.inr (Or.inl
        ⟨ws, by simp [email, h1f, h2f, h3f, hs, hr, deliver]⟩))))))
    · exact Or.inr (Or.inr (Or.inr (Or.inr (Or.inr (Or.inr (Or.inr
        ⟨ws, !o.fwdFail2, by simp [email, h1f, h2f, h3f, hs, hr, deliver]⟩))))))
    · exact Or.inr (Or.inr (Or.inr (Or.inl
        ⟨mgmtForward, by simp [email, h1f, h2f, h3f, hs, hr, deliver]⟩)))
    · exact Or.inr (Or.inr (Or.inr (Or.inr (Or.inr (Or.inl
        ⟨mgmtForward, !o.fwdFail2,
         by simp [email, h1f, h2f, h3f, hs, hr, deliver]⟩)))))

theorem countP_append (p : Ev → Bool) (xs ys : List Ev) :
    countP p (xs ++ ys) = countP p xs + countP p ys := by
  simp [countP, List.filter_append]

theorem countP_nil (p : Ev → Bool) : countP p [] = 0 := rfl

theorem countP_cons (p : Ev → Bool) (e : Ev) (evs : List Ev) :
    countP p (e :: evs) = (if p e = true then 1 else 0) + countP p evs := by
  by_cases h : p e = true <;>
    simp [countP, List.filter_cons, h, Nat.add_comm]

theorem countP_of_inference (p : Ev → Bool) (hp : p Ev.inference = false)
    (evs : List Ev) (h : ∀ e ∈ evs, e = Ev.inference) : countP p evs = 0 := by
  unfold countP
  rw [List.length_eq_zero]
  rw [List.filter_eq_nil_iff]
  intro e he
  rw [h e he, hp]
  simp

/-! ## C9 — uniqueness of the terminal action -/

/-- C9, counterexample.  When the final `message.forward` throws, the
top-level catch invokes `message.forward` a second time (with the
hardcoded safe default): `forward` is invoked twice for one message,
contradicting "each invoked at most once per message". -/
theorem c9_forward_twice_cex :
    (email ⟨"sender@example.com", "zz", "itcanbellc.com", "hello", "hi"⟩
        { defaultForwardEnv := some "main@example.com", ai := none,
          evidenceRouterUrl := false, financeRouterUrl := false,
          complianceRouterUrl := false, rateLimits := some none }
        ⟨0, true, true, false⟩).events =
      [Ev.forwardAct "main@example.com" false, Ev.forwardAct safeDefault true]
    ∧ countP isFwdEv
        (email ⟨"sender@example.com", "zz", "itcanbellc.com", "hello", "hi"⟩
          { defaultForwardEnv := some "main@example.com", ai := none,
            evidenceRouterUrl := false, financeRouterUrl := false,
            complianceRouterUrl := false, rateLimits := some none }
          ⟨0, true, true, false⟩).events = 2 := by
  decide

/-- C9, amended: every invocation yields at most one committed terminal
action.  `setReject` is called at most once; at most one `forward`
completes successfully; `forward` is invoked at most twice, and a second
invocation happens only after a first invocation failed; a successful
workstream dispatch excludes every forward and reject event; and a
rejection excludes every forward and dispatch event. -/
theorem c9_terminal_uniqueness (m : Message) (env : Env) (o : Oracle) :
    countP isRejectEv (email m env o).events ≤ 1
    ∧ countP isFwdSuccessEv (email m env o).events ≤ 1
    ∧ countP isFwdEv (email m env o).events ≤ 2
    ∧ (countP isFwdEv (email m env o).events = 2 →
        ∃ a, Ev.forwardAct a false ∈ (email m env o).events)
    ∧ (∀ ws, Ev.dispatch ws true ∈ (email m env o).events →
        countP isFwdEv (email m env o).events = 0
        ∧ countP isRejectEv (email m env o).events = 0)
    ∧ (∀ r, Ev.rejectAct r ∈ (email m env o).events →
        countP isFwdEv (email m env o).events = 0
        ∧ countP isDispatchEv (email m env o).events = 0) := by
  obtain ⟨infs, hinfs, hcase⟩ := email_cases m env o
  have hF0 : countP isFwdEv infs = 0 :=
    countP_of_inference _ rfl _ hinfs
  have hFS0 : countP isFwdSuccessEv infs = 0 :=
    countP_of_inference _ rfl _ hinfs
  have hR0 : countP isRejectEv infs = 0 :=
    countP_of_inference _ rfl _ hinfs
  have hD0 : countP isDispatchEv infs = 0 :=
    countP_of_inference _ rfl _ hinfs
  have hnd : ∀ ws b, Ev.dispatch ws b ∉ infs := by
    intro ws b hmem
    have := hinfs _ hmem
    simp at this
  have hnf : ∀ a b, Ev.forwardAct a b ∉ infs := by
    intro a b hmem
    have := hinfs _ hmem
    simp at this
  have hnr : ∀ r, Ev.rejectAct r ∉ infs := by
    intro r hmem
    have := hinfs _ hmem
    simp at this
  rcases hcase with ⟨r, hE⟩ | hE | ⟨ws, hE⟩ | ⟨a, hE⟩ | ⟨a, hE⟩ |
      ⟨a, b, hE⟩ | ⟨ws, hE⟩ | ⟨ws, b, hE⟩ <;>
    rw [hE] <;>
    refine ⟨?_, ?_, ?_, ?_, ?_, ?_⟩ <;>
    try cases b
  all_goals
    simp [countP_append, countP_cons, countP_nil, hF0, hFS0, hR0, hD0,
          isFwdEv, isFwdSuccessEv, isRejectEv, isDispatchEv, hnd, hnf, hnr]

/-- C9, witness: a successful litigation dispatch has no forward and no
reject event, by the dispatch-exclusivity conjunct of the amended
uniqueness theorem. -/
theorem c9_terminal_uniqueness_witness :
    countP isFwdEv
        (email ⟨"s@example.com", "evidence", "chitty.cc", "case", "docs"⟩
          { defaultForwardEnv := none, ai := none, evidenceRouterUrl := true,
            financeRouterUrl := false, complianceRouterUrl := false,
            rateLimits := none } (mkOracle 1)).events = 0
    ∧ countP isRejectEv
        (email ⟨"s@example.com", "evidence", "chitty.cc", "case", "docs"⟩
          { defaultForwardEnv := none, ai := none, evidenceRouterUrl := true,
            financeRouterUrl := false, complianceRouterUrl := false,
            rateLimits := none } (mkOracle 1)).events = 0 :=
  (c9_terminal_uniqueness _ _ _).2.2.2.2.1 "litigation" (by decide)

/-! ## C10 — the rate counter is written only on the successful
direct-forward path -/

/-- C10: whenever the trace contains a rejection, or a successful
workstream dispatch, or no successfully completed forward at all
(discards and failed forwards included), the invocation leaves the
sender's stored RateRecord exactly as it found it: `updateRateLimit`
(line 428) runs only after the successful direct forward of line 398. -/
theorem c10_rate_store_frame (m : Message) (env : Env) (o : Oracle)
    (h : (∃ r, Ev.rejectAct r ∈ (email m env o).events)
       ∨ (∃ ws, Ev.dispatch ws true ∈ (email m env o).events)
       ∨ (∀ a, Ev.forwardAct a true ∉ (email m env o).events)) :
    (email m env o).store = env.rateLimits := by
  obtain ⟨infs, hinfs, hcase⟩ := email_cases m env o
  have hnd : ∀ ws b, Ev.dispatch ws b ∉ infs := by
    intro ws b hmem
    have := hinfs _ hmem
    simp at this
  have hnr : ∀ r, Ev.rejectAct r ∉ infs := by
    intro r hmem
    have := hinfs _ hmem
    simp at this
  rcases hcase with ⟨r, hE⟩ | hE | ⟨ws, hE⟩ | ⟨a, hE⟩ | ⟨a, hE⟩ |
      ⟨a, b, hE⟩ | ⟨ws, hE⟩ | ⟨ws, b, hE⟩
  · rw [hE]
  · rw [hE]
  · rw [hE]
  · rw [hE]
  · exfalso
    rcases h with ⟨r, hm⟩ | ⟨ws, hm⟩ | hall
    · rw [hE] at hm
      simp [hnr] at hm
    · rw [hE] at hm
      simp [hnd] at hm
    · apply hall a
      rw [hE]
      simp
  · rw [hE]
  · rw [hE]
  · rw [hE]

/-- C10, witness: a rate-limited message leaves the stored record
`{count: 60, window: 0}` unchanged. -/
theorem c10_rate_store_frame_witness :
    (email ⟨"s@example.com", "zz", "itcanbellc.com", "hello", "hi"⟩
      { defaultForwardEnv := none, ai := none, evidenceRouterUrl := false,
        financeRouterUrl := false, complianceRouterUrl := false,
        rateLimits := some (some ⟨60, 0⟩) } (mkOracle 0)).store =
      some (some ⟨60, 0⟩) :=
  c10_rate_store_frame _ _ _
    (Or.inl ⟨"Rate limit exceeded - please try again later", by decide⟩)

/-! ## C1 — the per-sender burst behaviour -/

theorem email_harmless (m : Message) (env : Env) (t : Nat)
    (h : harmless m env) :
    email m env (mkOracle t) =
      if checkRateLimit env.rateLimits then
        ⟨[Ev.rejectAct "Rate limit exceeded - please try again later"],
         env.rateLimits⟩
      else
        ⟨[Ev.forwardAct (defaultForwardOf env) true],
         updateRateLimit env.rateLimits t⟩ := by
  obtain ⟨hsp, hai, hnr1, hnr2, hev, hfin, hcom, hsr⟩ := h
  by_cases hrl : checkRateLimit env.rateLimits = true
  · simp [email, hrl]
  · have hrlf : checkRateLimit env.rateLimits = false := by simpa using hrl
    simp [email, hrlf, hsp, hai, aiPhase, aiSpamFlag, routeStep, phase1, hnr1,
          hnr2, hev, hfin, hcom, hsr, phase2, deliver, mkOracle]

theorem processSeq_expected (m : Message) (env : Env) (w : Nat)
    (h : harmless m env) :
    ∀ (ts : List Nat) (c : Nat), (∀ t ∈ ts, t - w ≤ 3600000) →
    processSeq m { env with rateLimits := some (some ⟨c, w⟩) }
        (ts.map mkOracle) =
      expectedEvents (defaultForwardOf env) c ts := by
  intro ts
  induction ts with
  | nil => intro c hts; simp [processSeq, expectedEvents]
  | cons t ts ih =>
      intro c hts
      have ht : t - w ≤ 3600000 := hts t (by simp)
      have hts' : ∀ t' ∈ ts, t' - w ≤ 3600000 :=
        fun t' h' => hts t' (by simp [h'])
      have henv : harmless m { env with rateLimits := some (some ⟨c, w⟩) } := h
      by_cases hc : c > 50
      · have hrl : checkRateLimit (some (some ⟨c, w⟩)) = true := by
          simp [checkRateLimit, hc]
        simp only [List.map_cons, processSeq,
          email_harmless m { env with rateLimits := some (some ⟨c, w⟩) } t henv,
          hrl, if_true]
        rw [ih c hts']
        simp [expectedEvents, hc, defaultForwardOf]
      · have hrl : checkRateLimit (some (some ⟨c, w⟩)) = false := by
          simp [checkRateLimit, hc]
        have hnw : ¬(t - w > 3600000) := by omega
        have hupd : updateRateLimit (some (some ⟨c, w⟩)) t =
            some (some ⟨c + 1, w⟩) := by
          simp [updateRateLimit, hnw]
        simp only [List.map_cons, processSeq,
          email_harmless m { env with rateLimits := some (some ⟨c, w⟩) } t henv,
          hrl, if_false, Bool.false_eq_true, hupd]
        rw [ih (c + 1) hts']
        simp [expectedEvents, hc, defaultForwardOf]

theorem expectedEvents_get (df : String) :
    ∀ (ts : List Nat) (c i : Nat), i < ts.length →
    (expectedEvents df c ts).get? i =
      some (if c + i > 50
            then [Ev.rejectAct "Rate limit exceeded - please try again later"]
            else [Ev.forwardAct df true]) := by
  intro ts
  induction ts with
  | nil => intro c i hi; simp at hi
  | cons t ts ih =>
      intro c i hi
      by_cases hc : c > 50
      · cases i with
        | zero =>
            have h0 : c + 0 > 50 := by omega
            simp [expectedEvents, hc, h0]
        | succ i =>
            have hi' : i < ts.length := by simpa using hi
            have hstep := ih c i hi'
            have h1 : c + i > 50 := by omega
            have h2 : c + (i + 1) > 50 := by omega
            simp only [expectedEvents, hc, if_true, List.get?_cons_succ]
            rw [hstep]
            simp [h1, h2]
      · cases i with
        | zero =>
            have h0 : ¬(c + 0 > 50) := by omega
            simp [expectedEvents, hc, h0]
        | succ i =>
            have hi' : i < ts.length := by simpa using hi
            have hstep := ih (c + 1) i hi'
            have harith : c + 1 + i = c + (i + 1) := by omega
            rw [harith] at hstep
            simp only [expectedEvents, hc, if_false, Bool.false_eq_true,
              List.get?_cons_succ]
            exact hstep

set_option maxRecDepth 100000 in
/-- C1, counterexample.  In the 60-message burst (10 minutes, one message
every 10 seconds, rate limiting on, empty store), the 50th AND the 51st
messages (indices 49 and 50) are forwarded normally; only from the 52nd
message (index 51) on is the sender rejected: `checkRateLimit` tests
`count > 50` against a count incremented after each completed forward, so
the 51st message still sees `count = 50`. -/
theorem c1_burst_cex :
    c1BurstResults.get? 49 = some [Ev.forwardAct "inbox@example.com" true]
    ∧ c1BurstResults.get? 50 = some [Ev.forwardAct "inbox@example.com" true]
    ∧ c1BurstResults.get? 51 =
        some [Ev.rejectAct "Rate limit exceeded - please try again later"] := by
  decide

/-- C1, amended: for every sender and harmless message, starting from an
empty rate store, in any burst whose later sends stay within 3600000 ms of
the first (`Date.now()` based, e.g. 60 messages in 10 minutes), messages
1 through 51 are processed normally (forwarded) and every message from the
52nd on is rejected with the rate-limit reason; i.e. the first rejected
message is the 52nd, not the 51st. -/
theorem c1_rate_limit_offbyone (m : Message) (env : Env) (t0 : Nat)
    (rest : List Nat) (i : Nat)
    (h : harmless m env)
    (hstore : env.rateLimits = some none)
    (hts : ∀ t ∈ rest, t - t0 ≤ 3600000)
    (hi : i < (t0 :: rest).length) :
    (processSeq m env ((t0 :: rest).map mkOracle)).get? i =
      some (if i + 1 ≤ 51 then [Ev.forwardAct (defaultForwardOf env) true]
            else [Ev.rejectAct "Rate limit exceeded - please try again later"]) := by
  have h1 : email m env (mkOracle t0) =
      ⟨[Ev.forwardAct (defaultForwardOf env) true],
       updateRateLimit env.rateLimits t0⟩ := by
    rw [email_harmless m env t0 h]
    rw [hstore]
    rfl
  have hupd : updateRateLimit env.rateLimits t0 = some (some ⟨1, t0⟩) := by
    rw [hstore]; rfl
  cases i with
  | zero =>
      simp [processSeq, h1]
  | succ i =>
      have hi' : i < rest.length := by simpa using hi
      have hseq : processSeq m { env with rateLimits := some (some ⟨1, t0⟩) }
          (rest.map mkOracle) = expectedEvents (defaultForwardOf env) 1 rest :=
        processSeq_expected m env t0 h rest 1 hts
      simp only [List.map_cons, processSeq, h1, hupd, List.get?_cons_succ]
      rw [hseq, expectedEvents_get (defaultForwardOf env) rest 1 i hi']
      by_cases hcc : 1 + i > 50
      · have hle : ¬(i + 1 + 1 ≤ 51) := by omega
        simp [hcc, hle]
      · have hle : i + 1 + 1 ≤ 51 := by omega
        simp [hcc, hle]

/-- C1, witness: the amended theorem applied to the concrete burst — the
52nd message (index 51) of the 60-message burst is rejected. -/
theorem c1_rate_limit_offbyone_witness :
    (processSeq c1Msg c1Env
        ((0 :: (List.range 59).map (fun k => (k + 1) * 10000)).map
          mkOracle)).get? 51 =
      some [Ev.rejectAct "Rate limit exceeded - please try again later"] :=
  c1_rate_limit_offbyone c1Msg c1Env 0
    ((List.range 59).map (fun k => (k + 1) * 10000)) 51
    ⟨by decide, rfl, by decide, by decide, by decide, by decide, by decide,
     by decide⟩ rfl (by decide) (by decide)
